import Mathlib

/-!
Verification development for the weather-companion backend core:
the TTL response cache, the cache-key normalizer, the condition
classifier, and the response-normalization layer shared by the
weather and geocoding clients.

The embedding models Python values that flow through this layer:
scalars used as request parameters, and parsed JSON values (Python
`None` and JSON `null` are the same value, `JVal.null`).  Floats are
modelled as rationals, `time.time()` as an explicit rational clock
parameter, and the process-wide cache dictionary as an explicit
association-list state threaded through the functions.
-/

namespace WeatherCompanion

/-- Scalar request-parameter values (string, int, float, bool), as built by
the fetchers in weather_client.py and geocoding_client.py. -/
inductive Scalar where
  | s (v : String)
  | i (v : Int)
  | f (v : ℚ)
  | b (v : Bool)
deriving DecidableEq

/-- Parsed JSON values as produced by resp.json().  Python None and JSON
null are one value; numbers are modelled as rationals. -/
inductive JVal where
  | null
  | b (v : Bool)
  | num (v : ℚ)
  | str (v : String)
  | arr (xs : List JVal)
  | obj (fields : List (String × JVal))

/-- Python truthiness of a JSON value (None, False, 0, empty string, empty
list and empty dict are falsy), as used by the `x or default` idiom. -/
def jtruthy : JVal → Bool
  | .null => false
  | .b v => v
  | .num q => decide (q ≠ 0)
  | .str s => !s.isEmpty
  | .arr xs => !xs.isEmpty
  | .obj fs => !fs.isEmpty

/-- Python `x or d`: keep `x` if truthy, else the default `d`. -/
def jor (v d : JVal) : JVal :=
  if jtruthy v then v else d

/-- First binding for a key in a JSON object field list (upstream objects,
like Python dicts, carry each key at most once). -/
def fieldLookup : List (String × JVal) → String → Option JVal
  | [], _ => none
  | (k', x) :: rest, k => if k' = k then some x else fieldLookup rest k

/-- Python `d.get(k)` on a parsed JSON object: the bound value, or None when
the key is missing.  Non-object receivers yield null; in the source every
receiver is a dict, guarded by the `x or {}` idiom. -/
def jget (v : JVal) (k : String) : JVal :=
  match v with
  | .obj fs =>
    match fieldLookup fs k with
    | some x => x
    | none => .null
  | _ => .null

/-- The element list of a JSON array (non-arrays have no elements). -/
def jarr : JVal → List JVal
  | .arr xs => xs
  | _ => []

/-- Python `o.get(k) or []` followed by list use: the array stored under
`k`, defaulting to empty when missing or falsy. -/
def getList (o : JVal) (k : String) : List JVal :=
  jarr (jor (jget o k) (.arr []))

/-! ### Key Normalizer (weather_client.py / geocoding_client.py, _params_to_key) -/

/-- Cache keys: (endpoint identifier, tuple of (name, value) parameter
pairs sorted by name). -/
abbrev CacheKey := String × List (String × Scalar)

/-- Comparison used by Python `sorted(params.items(), key=lambda x: x[0])`:
order pairs by parameter name. -/
def byName (a b : String × Scalar) : Prop := a.1 ≤ b.1

instance : DecidableRel byName := fun a b => by
  unfold byName; infer_instance

/-- Embeds _params_to_key: normalize an endpoint id and a parameter mapping
to a hashable key whose parameter pairs are sorted by name (Python sorted
is a stable sort; insertion sort by the same comparison is stable too). -/
def params_to_key (endpoint : String) (params : List (String × Scalar)) : CacheKey :=
  (endpoint, params.insertionSort byName)

/-! ### Cache Store (weather_client.py / geocoding_client.py, _cache / _cache_get / _cache_set) -/

/-- The process-wide cache dictionary, modelled as an explicit association
list from cache key to (insertion timestamp, cached value). -/
abbrev Store := List (CacheKey × (ℚ × JVal))

/-- Python dict lookup `_cache.get(key)`. -/
def dictGet (st : Store) (k : CacheKey) : Option (ℚ × JVal) :=
  match st with
  | [] => none
  | (k', v) :: rest => if k' = k then some v else dictGet rest k

/-- Python dict assignment `_cache[key] = v`: replace in place or append. -/
def dictInsert (st : Store) (k : CacheKey) (v : ℚ × JVal) : Store :=
  match st with
  | [] => [(k, v)]
  | (k', v') :: rest => if k' = k then (k, v) :: rest else (k', v') :: dictInsert rest k v

/-- Python `del _cache[key]` wrapped in try/except KeyError: remove the
binding when present; a missing key is not an error (the function is total
and leaves the store unchanged in that case). -/
def dictErase (st : Store) (k : CacheKey) : Store :=
  match st with
  | [] => []
  | (k', v') :: rest => if k' = k then rest else (k', v') :: dictErase rest k

/-- Embeds _cache_get.  `ttl` is settings.cache_ttl_seconds, `now` the value
of time.time().  Returns the Python return value (None is JVal.null — the
absent sentinel and JSON null coincide, as in the source) together with the
store after the lazy-expiry side effect. -/
def cache_get (ttl : Int) (now : ℚ) (st : Store) (key : CacheKey) : JVal × Store :=
  if ttl ≤ 0 then (.null, st)
  else
    match dictGet st key with
    | none => (.null, st)
    | some (ts, data) =>
      if now - ts ≤ (ttl : ℚ) then (data, st)
      else (.null, dictErase st key)

/-- Embeds _cache_set: no-op when TTL ≤ 0, else insert/replace the entry
with the current timestamp. -/
def cache_set (ttl : Int) (now : ℚ) (st : Store) (key : CacheKey) (data : JVal) : Store :=
  if ttl ≤ 0 then st
  else dictInsert st key (now, data)

/-! ### Condition Classifier (weather_client.py, _weathercode_to_text_icon) -/

/-- The static weather-code table of _weathercode_to_text_icon, in source
order (a Python dict literal with distinct integer keys). -/
def codeTable : List (Int × String × String) :=
  [ (0, "Clear sky", "clear")
  , (1, "Mainly clear", "clear")
  , (2, "Partly cloudy", "partly_cloudy")
  , (3, "Overcast", "cloudy")
  , (45, "Fog", "fog")
  , (48, "Depositing rime fog", "fog")
  , (51, "Light drizzle", "drizzle")
  , (61, "Slight rain", "rain")
  , (63, "Moderate rain", "rain")
  , (65, "Heavy rain", "rain")
  , (71, "Slight snow", "snow")
  , (80, "Rain showers", "showers")
  , (95, "Thunderstorm", "thunder")
  ]

/-- Embeds _weathercode_to_text_icon: None maps to (None, None); a code in
the table maps to the table's (text, icon); any other integer maps to
("Code " followed by the code, "unknown"). -/
def weathercode_to_text_icon (code : Option Int) : Option String × Option String :=
  match code with
  | none => (none, none)
  | some c =>
    match codeTable.lookup c with
    | some (t, ic) => (some t, some ic)
    | none => (some ("Code " ++ toString c), some "unknown")

/-- Weather codes arriving in JSON are integers or null (spec §3: a small
integer).  A null code is Python None; an integral JSON number keys the
classifier table (Python int/float dict lookup compares by value). -/
def codeOfJVal : JVal → Option Int
  | .num q => if q.den = 1 then some q.num else none
  | _ => none

/-! ### Upstream Fetchers (weather_client.py / geocoding_client.py) -/

/-- Parameter mapping built by get_current_weather, in source order. -/
def currentParams (lat lon : ℚ) : List (String × Scalar) :=
  [ ("latitude", .f lat)
  , ("longitude", .f lon)
  , ("current_weather", .b true)
  , ("hourly", .s "weathercode,temperature_2m")
  , ("timezone", .s "auto")
  ]

/-- Parameter mapping built by get_forecast after its days clamp, in source
order. -/
def forecastParams (lat lon : ℚ) (days : Int) : List (String × Scalar) :=
  [ ("latitude", .f lat)
  , ("longitude", .f lon)
  , ("daily", .s "weathercode,temperature_2m_max,temperature_2m_min")
  , ("hourly", .s "weathercode,temperature_2m")
  , ("forecast_days", .i days)
  , ("timezone", .s "auto")
  ]

/-- Parameter mapping built by geocode_search (the count clamp is written
inline in the dict literal, as in the source). -/
def searchParams (query : String) (count : Int) : List (String × Scalar) :=
  [ ("name", .s query)
  , ("count", .i (max 1 (min count 20)))
  ]

/-- Parameter mapping built by reverse_geocode. -/
def reverseParams (lat lon : ℚ) : List (String × Scalar) :=
  [ ("latitude", .f lat)
  , ("longitude", .f lon)
  ]

/-- The cache-consulting skeleton shared by all four fetchers: look up the
key; a non-None cached value is returned as-is (hit); otherwise perform the
network call (its parsed JSON body is the `network` argument, standing for
the single HTTP GET of the miss path), write it to the cache, and return
it.  The result pairs the returned JSON with the final cache store. -/
def fetchWithCache (ttl : Int) (now : ℚ) (st : Store) (key : CacheKey) (network : JVal) :
    JVal × Store :=
  match cache_get ttl now st key with
  | (.null, st1) => (network, cache_set ttl now st1 key network)
  | (cached, st1) => (cached, st1)

/-- Embeds get_current_weather around the cache (network body abstracted). -/
def get_current_weather (ttl : Int) (now : ℚ) (lat lon : ℚ) (st : Store) (network : JVal) :
    JVal × Store :=
  fetchWithCache ttl now st (params_to_key "current" (currentParams lat lon)) network

/-- Embeds get_forecast: days is clamped to [1, 10] before the parameter
mapping is built. -/
def get_forecast (ttl : Int) (now : ℚ) (lat lon : ℚ) (days : Int) (st : Store) (network : JVal) :
    JVal × Store :=
  fetchWithCache ttl now st
    (params_to_key "forecast" (forecastParams lat lon (max 1 (min days 10)))) network

/-- Embeds geocode_search around the cache. -/
def geocode_search (ttl : Int) (now : ℚ) (query : String) (count : Int) (st : Store)
    (network : JVal) : JVal × Store :=
  fetchWithCache ttl now st (params_to_key "search" (searchParams query count)) network

/-- Embeds reverse_geocode around the cache. -/
def reverse_geocode (ttl : Int) (now : ℚ) (lat lon : ℚ) (st : Store) (network : JVal) :
    JVal × Store :=
  fetchWithCache ttl now st (params_to_key "reverse" (reverseParams lat lon)) network

/-! ### Response Normalizer: forecast (routers/weather.py, forecast handler) -/

/-- Daily forecast item, fields in the order of models.DailyForecastItem.
Date, temperatures and weather code carry the raw JSON values placed
positionally by the handler. -/
structure DailyForecastItem where
  date : JVal
  min_temp_c : JVal
  max_temp_c : JVal
  weather_code : JVal
  condition_text : Option String
  condition_icon : Option String

/-- Hourly forecast item, fields in the order of models.HourlyForecastItem. -/
structure HourlyForecastItem where
  time_iso : JVal
  temp_c : JVal
  weather_code : JVal
  condition_text : Option String
  condition_icon : Option String

/-- Embeds the daily loop of the forecast handler: read the four parallel
arrays defensively (data defaulted to an empty dict, its daily section
defaulted to an empty dict, each array defaulted to empty), then emit
`min` of the four lengths items, item i built from index i of each array. -/
def forecastDaily (data : JVal) : List DailyForecastItem :=
  let daily_raw := jor (jget (jor data (.obj [])) "daily") (.obj [])
  let dates := getList daily_raw "time"
  let tmax := getList daily_raw "temperature_2m_max"
  let tmin := getList daily_raw "temperature_2m_min"
  let wcodes := getList daily_raw "weathercode"
  (List.range (min (min (min dates.length tmax.length) tmin.length) wcodes.length)).map
    fun i =>
      let code := wcodes.getD i .null
      let ti := weathercode_to_text_icon (codeOfJVal code)
      ⟨dates.getD i .null, tmin.getD i .null, tmax.getD i .null, code, ti.1, ti.2⟩

/-- Embeds the hourly loop of the forecast handler, over its three parallel
arrays. -/
def forecastHourly (data : JVal) : List HourlyForecastItem :=
  let hourly_raw := jor (jget (jor data (.obj [])) "hourly") (.obj [])
  let times := getList hourly_raw "time"
  let temps := getList hourly_raw "temperature_2m"
  let hwcodes := getList hourly_raw "weathercode"
  (List.range (min (min times.length temps.length) hwcodes.length)).map
    fun i =>
      let code := hwcodes.getD i .null
      let ti := weathercode_to_text_icon (codeOfJVal code)
      ⟨times.getD i .null, temps.getD i .null, code, ti.1, ti.2⟩

/-! ### Response Normalizer: current weather (routers/weather.py, current_weather handler) -/

/-- Normalized current-weather record, fields in the order of
models.CurrentWeather.  Scalar upstream fields carry the raw JSON values
the handler passes through. -/
structure CurrentWeather where
  temperature_c : JVal
  wind_speed_kph : JVal
  wind_direction_deg : JVal
  weather_code : JVal
  condition_text : Option String
  condition_icon : Option String
  observation_time_iso : JVal

/-- Python `cw.get("windspeed") * 1.0` on a number (the only value the
upstream sends for windspeed; a non-number would raise TypeError). -/
def jmulOne : JVal → JVal
  | .num q => .num (q * 1)
  | v => v

/-- Embeds the normalization part of the current_weather handler, after the
upstream body has been fetched. -/
def normalizeCurrent (data : JVal) : CurrentWeather :=
  let cw := jor (jget (jor data (.obj [])) "current_weather") (.obj [])
  let weather_code := jget cw "weathercode"
  let ti := weathercode_to_text_icon (codeOfJVal weather_code)
  { temperature_c := jget cw "temperature"
  , wind_speed_kph :=
      match jget cw "windspeed" with
      | .null => .null
      | v => jmulOne v
  , wind_direction_deg := jget cw "winddirection"
  , weather_code := weather_code
  , condition_text := ti.1
  , condition_icon := ti.2
  , observation_time_iso := jget cw "time"
  }

/-! ### Response Normalizer: locations (routers/location.py) -/

/-- Digit-string value, for Python float() on decimal literals. -/
def parseDigits : List Char → Option Nat
  | [] => none
  | cs =>
    cs.foldl
      (fun acc c => acc.bind fun n => if c.isDigit then some (n * 10 + (c.toNat - 48)) else none)
      (some 0)

/-- Unsigned decimal "ddd", "ddd.ddd", "ddd." or ".ddd", as accepted by
Python float() (exponents and special forms are not sent by the upstream
and are not modelled). -/
def parseUnsigned (cs : List Char) : Option ℚ :=
  let intPart := cs.takeWhile (fun c => c ≠ '.')
  match cs.dropWhile (fun c => c ≠ '.') with
  | [] => (parseDigits intPart).map fun n => (n : ℚ)
  | _ :: frac =>
    if intPart.isEmpty ∧ frac.isEmpty then none
    else
      (if intPart.isEmpty then some 0 else parseDigits intPart).bind fun ip =>
        (if frac.isEmpty then some 0 else parseDigits frac).map fun fp =>
          (ip : ℚ) + (fp : ℚ) / ((10 : ℚ) ^ frac.length)

/-- Python float() applied to a JSON value: numbers pass through, booleans
coerce to 1/0, decimal strings parse; None (missing field), arrays and
objects fail (TypeError/ValueError), reported as none. -/
def pyFloat : JVal → Option ℚ
  | .num q => some q
  | .b true => some 1
  | .b false => some 0
  | .str s =>
    match s.toList with
    | '-' :: rest => (parseUnsigned rest).map fun q => -q
    | '+' :: rest => parseUnsigned rest
    | cs => parseUnsigned cs
  | _ => none

/-- Geographic coordinates (models.Coordinates). -/
structure Coordinates where
  lat : ℚ
  lon : ℚ

/-- Normalized search-result record (models.LocationSearchItem).  The id
field keeps the raw JSON value when present (Python renders it with str(),
a rendering no property here observes); name defaults to the empty string;
state prefers admin1 and falls back to admin2. -/
structure LocationSearchItem where
  id : Option JVal
  name : JVal
  country : JVal
  state : JVal
  coordinates : Coordinates

/-- Embeds the per-item normalization of the search and reverse handlers:
all fields are read defensively except the coordinates, where a latitude or
longitude that float() cannot convert raises (modelled as an error result,
carrying which conversion failed). -/
def normalizeSearchItem (r : JVal) : Except String LocationSearchItem :=
  match pyFloat (jget r "latitude") with
  | none => .error "float() failed on latitude"
  | some la =>
    match pyFloat (jget r "longitude") with
    | none => .error "float() failed on longitude"
    | some lo =>
      .ok
        { id :=
            match jget r "id" with
            | .null => none
            | v => some v
        , name := jor (jget r "name") (.str "")
        , country := jget r "country"
        , state := jor (jget r "admin1") (jget r "admin2")
        , coordinates := ⟨la, lo⟩
        }

/-- Failure conditions a search/reverse operation can surface: an upstream
transport failure (network error / non-2xx, wrapped by the handler into an
HTTP 502), or an upstream format failure (float() raising on a malformed
item, which escapes the handler as a distinct, unhandled exception type). -/
inductive UpstreamFailure where
  | transport (msg : String)
  | format (msg : String)
deriving DecidableEq

/-- Normalization of every result item in order, stopping at the first
malformed item, as the handler loop does. -/
def normalizeItems : List JVal → Except String (List LocationSearchItem)
  | [] => .ok []
  | r :: rest =>
    match normalizeSearchItem r with
    | .error e => .error e
    | .ok item => (normalizeItems rest).map fun items => item :: items

/-- Embeds the search handler of routers/location.py after query
validation: a transport failure from geocode_search becomes the 502
condition; on success the result items (data defaulted to an empty dict,
the results array defaulted to empty) are normalized in order, a malformed
item surfacing as a format failure. -/
def searchLocations (upstream : Except String JVal) :
    Except UpstreamFailure (List LocationSearchItem) :=
  match upstream with
  | .error e => .error (.transport e)
  | .ok data =>
    match normalizeItems (getList (jor data (.obj [])) "results") with
    | .error e => .error (.format e)
    | .ok items => .ok items

/-- Embeds the reverse handler of routers/location.py: a transport failure
becomes the 502 condition; an empty result list is a successful absent
outcome; otherwise the first item is normalized. -/
def reverseBest (upstream : Except String JVal) :
    Except UpstreamFailure (Option LocationSearchItem) :=
  match upstream with
  | .error e => .error (.transport e)
  | .ok data =>
    match getList (jor data (.obj [])) "results" with
    | [] => .ok none
    | r0 :: _ =>
      match normalizeSearchItem r0 with
      | .error e => .error (.format e)
      | .ok item => .ok (some item)

/-! ### Helper lemmas -/

/-- Ordering pairs by name is total. -/
instance byName_isTotal : IsTotal (String × Scalar) byName :=
  ⟨fun a b => le_total a.1 b.1⟩

/-- Ordering pairs by name is transitive. -/
instance byName_isTrans : IsTrans (String × Scalar) byName :=
  ⟨fun _ _ _ h h' => le_trans h h'⟩

/-- Strict name order on parameter pairs. -/
def byNameLT (a b : String × Scalar) : Prop := a.1 < b.1

instance byNameLT_isAntisymm : IsAntisymm (String × Scalar) byNameLT :=
  ⟨fun _ _ h h' => ((lt_asymm h) h').elim⟩

theorem pairwise_byNameLT_of_nodup {l : List (String × Scalar)}
    (hs : l.Pairwise byName) (hnd : (l.map Prod.fst).Nodup) : l.Pairwise byNameLT := by
  have hne : l.Pairwise fun a b => a.1 ≠ b.1 := List.pairwise_map.mp hnd
  exact hs.imp₂ (fun a b hle hne' => lt_of_le_of_ne hle hne') hne

/-- Two name-sorted lists of parameter pairs with duplicate-free names that
are permutations of each other coincide. -/
theorem sorted_params_eq_of_perm {l₁ l₂ : List (String × Scalar)}
    (hp : l₁.Perm l₂) (hs₁ : l₁.Pairwise byName) (hs₂ : l₂.Pairwise byName)
    (hnd : (l₁.map Prod.fst).Nodup) : l₁ = l₂ := by
  have hnd₂ : (l₂.map Prod.fst).Nodup := ((hp.map Prod.fst).nodup_iff).mp hnd
  exact List.eq_of_perm_of_sorted (r := byNameLT) hp
    (pairwise_byNameLT_of_nodup hs₁ hnd) (pairwise_byNameLT_of_nodup hs₂ hnd₂)

theorem dictGet_dictInsert_self (st : Store) (k : CacheKey) (v : ℚ × JVal) :
    dictGet (dictInsert st k v) k = some v := by
  induction st with
  | nil => simp [dictInsert, dictGet]
  | cons p rest ih =>
    by_cases h : p.1 = k
    · simp [dictInsert, dictGet, h]
    · simp [dictInsert, dictGet, h, ih]

theorem dictGet_eq_none_of_not_mem {st : Store} {k : CacheKey}
    (h : k ∉ st.map Prod.fst) : dictGet st k = none := by
  induction st with
  | nil => rfl
  | cons p rest ih =>
    simp only [List.map_cons, List.mem_cons] at h
    push_neg at h
    have hne : ¬ p.1 = k := fun he => h.1 he.symm
    simp [dictGet, hne, ih h.2]

theorem dictErase_of_not_mem {st : Store} {k : CacheKey}
    (h : k ∉ st.map Prod.fst) : dictErase st k = st := by
  induction st with
  | nil => rfl
  | cons p rest ih =>
    simp only [List.map_cons, List.mem_cons] at h
    push_neg at h
    have hne : ¬ p.1 = k := fun he => h.1 he.symm
    simp [dictErase, hne, ih h.2]

theorem dictGet_dictErase_self {st : Store} (k : CacheKey)
    (hnd : (st.map Prod.fst).Nodup) : dictGet (dictErase st k) k = none := by
  induction st with
  | nil => rfl
  | cons p rest ih =>
    simp only [List.map_cons, List.nodup_cons] at hnd
    by_cases h : p.1 = k
    · subst h
      simpa [dictErase] using dictGet_eq_none_of_not_mem hnd.1
    · simp [dictErase, dictGet, h, ih hnd.2]

/-! ### Claim theorems: key canonicalization and cache -/

/-- C1.  Key canonicalization: _params_to_key returns the endpoint id paired
with the parameter pairs sorted by name (a permutation of the input,
pairwise ordered lexicographically on the name), and two parameter mappings
that are permutations of each other (dict parameter names are duplicate
free) normalize to identical keys. -/
theorem key_canonicalization (e : String) (ps ps' : List (String × Scalar))
    (hnd : (ps.map Prod.fst).Nodup) (hnd' : (ps'.map Prod.fst).Nodup)
    (hset : ∀ p, p ∈ ps ↔ p ∈ ps') :
    (params_to_key e ps).1 = e
    ∧ (params_to_key e ps).2.Perm ps
    ∧ (params_to_key e ps).2.Pairwise byName
    ∧ params_to_key e ps = params_to_key e ps' := by
  have hperm : ps.Perm ps' :=
    (List.perm_ext_iff_of_nodup (hnd.of_map Prod.fst) (hnd'.of_map Prod.fst)).mpr hset
  refine ⟨rfl, List.perm_insertionSort byName ps, List.sorted_insertionSort byName ps, ?_⟩
  have h₁ : (ps.insertionSort byName).Perm (ps'.insertionSort byName) :=
    (List.perm_insertionSort byName ps).trans
      (hperm.trans (List.perm_insertionSort byName ps').symm)
  have hnd₁ : ((ps.insertionSort byName).map Prod.fst).Nodup :=
    (((List.perm_insertionSort byName ps).map Prod.fst).nodup_iff).mpr hnd
  have := sorted_params_eq_of_perm h₁
    (List.sorted_insertionSort byName ps) (List.sorted_insertionSort byName ps') hnd₁
  unfold params_to_key
  rw [this]

/-- C1 witness: two concrete two-parameter mappings in opposite insertion
orders normalize to the same sorted key. -/
theorem key_canonicalization_witness :
    ((([("b", Scalar.i 1), ("a", Scalar.s "x")] : List (String × Scalar)).map Prod.fst).Nodup
        ∧ (([("a", Scalar.s "x"), ("b", Scalar.i 1)] : List (String × Scalar)).map
            Prod.fst).Nodup)
    ∧ params_to_key "search" [("b", Scalar.i 1), ("a", Scalar.s "x")]
        = params_to_key "search" [("a", Scalar.s "x"), ("b", Scalar.i 1)] :=
  ⟨⟨by decide, by decide⟩,
    (key_canonicalization "search" [("b", Scalar.i 1), ("a", Scalar.s "x")]
      [("a", Scalar.s "x"), ("b", Scalar.i 1)] (by decide) (by decide)
      (fun p => by simp only [List.mem_cons, List.not_mem_nil, or_false]; tauto)).2.2.2⟩

/-- C2.  Cache round-trip: with TTL > 0 a set followed by a get on the same
key within the TTL window returns exactly the stored value (and leaves the
store as written); with TTL ≤ 0 every get reports absent (None) and set
leaves the store unchanged. -/
theorem cache_round_trip (ttl : Int) (now now' : ℚ) (st : Store) (key : CacheKey) (v : JVal) :
    (0 < ttl → now' - now ≤ (ttl : ℚ) →
      cache_get ttl now' (cache_set ttl now st key v) key = (v, cache_set ttl now st key v))
    ∧ (ttl ≤ 0 →
      cache_get ttl now' st key = (.null, st) ∧ cache_set ttl now st key v = st) := by
  constructor
  · intro hpos hfresh
    have hn : ¬ ttl ≤ 0 := not_le.mpr hpos
    simp only [cache_get, cache_set, if_neg hn, dictGet_dictInsert_self]
    rw [if_pos hfresh]
  · intro hle
    unfold cache_get cache_set
    rw [if_pos hle, if_pos hle]
    exact ⟨rfl, rfl⟩

/-- C2 witness: a concrete round-trip at TTL 45 on an empty store, and the
disabled-cache behaviour at TTL 0. -/
theorem cache_round_trip_witness :
    (0 < (45 : Int) ∧ (0 : ℚ) - 0 ≤ ((45 : Int) : ℚ)
      ∧ cache_get 45 0 (cache_set 45 0 [] ("current", []) (.num 7)) ("current", [])
          = (.num 7, cache_set 45 0 [] ("current", []) (.num 7)))
    ∧ ((0 : Int) ≤ 0 ∧ cache_get 0 0 [] ("current", []) = (.null, [])
      ∧ cache_set 0 0 [] ("current", []) (.num 7) = []) :=
  ⟨⟨by decide, by norm_num,
      (cache_round_trip 45 0 0 [] ("current", []) (.num 7)).1 (by decide) (by norm_num)⟩,
    le_refl 0, (cache_round_trip 0 0 0 [] ("current", []) (.num 7)).2 (le_refl 0)⟩

/-- C3.  Lazy expiry: a get strictly after the TTL has elapsed since the
entry's timestamp reports absent and removes the entry from the store (the
removal is total: erasing an absent key is a no-op, not an error). -/
theorem cache_lazy_expiry (ttl : Int) (now ts : ℚ) (st : Store) (key : CacheKey) (v : JVal)
    (hnd : (st.map Prod.fst).Nodup) (hstored : dictGet st key = some (ts, v))
    (hpos : 0 < ttl) (hexp : (ttl : ℚ) < now - ts) :
    cache_get ttl now st key = (.null, dictErase st key)
    ∧ dictGet (cache_get ttl now st key).2 key = none
    ∧ ∀ st' : Store, key ∉ st'.map Prod.fst → dictErase st' key = st' := by
  have hmain : cache_get ttl now st key = (.null, dictErase st key) := by
    simp only [cache_get, if_neg (not_le.mpr hpos), hstored]
    rw [if_neg (not_le.mpr hexp)]
  refine ⟨hmain, ?_, fun _ h => dictErase_of_not_mem h⟩
  rw [hmain]
  exact dictGet_dictErase_self key hnd

/-- C3 witness: a single-entry store written at time 0 and read at time 46
with TTL 45 reports absent and no longer holds the entry. -/
theorem cache_lazy_expiry_witness :
    (((([((("current", []) : CacheKey), ((0 : ℚ), JVal.num 7))] : Store).map Prod.fst).Nodup)
      ∧ dictGet [((("current", []) : CacheKey), ((0 : ℚ), JVal.num 7))] ("current", [])
          = some (0, .num 7)
      ∧ 0 < (45 : Int) ∧ ((45 : Int) : ℚ) < 46 - 0)
    ∧ cache_get 45 46 [((("current", []) : CacheKey), ((0 : ℚ), JVal.num 7))] ("current", [])
        = (.null, dictErase [((("current", []) : CacheKey), ((0 : ℚ), JVal.num 7))] ("current", []))
    ∧ dictGet (cache_get 45 46 [((("current", []) : CacheKey), ((0 : ℚ), JVal.num 7))]
        ("current", [])).2 ("current", []) = none :=
  ⟨⟨by decide, by rfl, by decide, by norm_num⟩,
    (cache_lazy_expiry 45 46 0 [((("current", []) : CacheKey), ((0 : ℚ), JVal.num 7))]
      ("current", []) (.num 7) (by decide) (by rfl) (by decide) (by norm_num)).1,
    (cache_lazy_expiry 45 46 0 [((("current", []) : CacheKey), ((0 : ℚ), JVal.num 7))]
      ("current", []) (.num 7) (by decide) (by rfl) (by decide) (by norm_num)).2.1⟩

/-! ### Claim theorems: classifier, clamping, cached-null miss -/

/-- C5.  Classifier totality: the classifier is total over integers union
absent; absent maps to (absent, absent); a code present in the static table
maps to the table's (text, icon); any other integer maps to the generated
text "Code " followed by the code with icon category "unknown". -/
theorem classifier_totality :
    weathercode_to_text_icon none = (none, none)
    ∧ (∀ c : Int, ∀ t ic : String, codeTable.lookup c = some (t, ic) →
        weathercode_to_text_icon (some c) = (some t, some ic))
    ∧ (∀ c : Int, codeTable.lookup c = none →
        weathercode_to_text_icon (some c) = (some ("Code " ++ toString c), some "unknown")) := by
  refine ⟨rfl, ?_, ?_⟩
  · intro c t ic h
    simp only [weathercode_to_text_icon]
    rw [h]
  · intro c h
    simp only [weathercode_to_text_icon]
    rw [h]

/-- C5 witness: code 3 is in the table and classifies to Overcast/cloudy;
code 42 is not and classifies to the generated text with icon unknown. -/
theorem classifier_totality_witness :
    codeTable.lookup 3 = some ("Overcast", "cloudy")
    ∧ weathercode_to_text_icon (some 3) = (some "Overcast", some "cloudy")
    ∧ codeTable.lookup 42 = none
    ∧ weathercode_to_text_icon (some 42) = (some ("Code " ++ toString (42 : Int)), some "unknown") :=
  ⟨by rfl, classifier_totality.2.1 3 "Overcast" "cloudy" (by rfl),
    by rfl, classifier_totality.2.2 42 (by rfl)⟩

/-- C9.  Parameter clamping: get_forecast uses max(1, min(days, 10)) as the
forecast_days value of its parameter mapping, a value always in [1, 10];
geocode_search uses max(1, min(count, 20)) as the count value, always in
[1, 20]. -/
theorem parameter_clamping (lat lon : ℚ) (q : String) (days count : Int) :
    ((forecastParams lat lon (max 1 (min days 10))).lookup "forecast_days"
        = some (.i (max 1 (min days 10)))
      ∧ 1 ≤ max 1 (min days 10) ∧ max 1 (min days 10) ≤ 10)
    ∧ ((searchParams q count).lookup "count" = some (.i (max 1 (min count 20)))
      ∧ 1 ≤ max 1 (min count 20) ∧ max 1 (min count 20) ≤ 20)
    ∧ (∀ ttl : Int, ∀ now : ℚ, ∀ st : Store, ∀ network : JVal,
        get_forecast ttl now lat lon days st network
          = fetchWithCache ttl now st
              (params_to_key "forecast" (forecastParams lat lon (max 1 (min days 10)))) network)
    ∧ (∀ ttl : Int, ∀ now : ℚ, ∀ st : Store, ∀ network : JVal,
        geocode_search ttl now q count st network
          = fetchWithCache ttl now st (params_to_key "search" (searchParams q count)) network) :=
  ⟨⟨rfl, le_max_left 1 (min days 10), max_le (by norm_num) (min_le_right days 10)⟩,
    ⟨rfl, le_max_left 1 (min count 20), max_le (by norm_num) (min_le_right count 20)⟩,
    fun _ _ _ _ => rfl, fun _ _ _ _ => rfl⟩

/-- C10.  A cached None behaves as a miss: the fetchers treat a lookup as a
hit exactly when cache_get returns a non-None value (the absent sentinel is
None itself), so a stored JSON-null entry within the TTL window still takes
the network path and rewrites the cache, and a hit never hands None back. -/
theorem cached_null_is_miss (ttl : Int) (now ts : ℚ) (key : CacheKey) (st : Store)
    (network v : JVal) :
    ((cache_get ttl now st key).1 = v → v ≠ .null →
        fetchWithCache ttl now st key network = (v, (cache_get ttl now st key).2))
    ∧ ((cache_get ttl now st key).1 = .null →
        fetchWithCache ttl now st key network
          = (network, cache_set ttl now (cache_get ttl now st key).2 key network))
    ∧ (dictGet st key = none → (cache_get ttl now st key).1 = .null)
    ∧ (0 < ttl → dictGet st key = some (ts, .null) → now - ts ≤ (ttl : ℚ) →
        fetchWithCache ttl now st key network = (network, cache_set ttl now st key network)) := by
  refine ⟨?_, ?_, ?_, ?_⟩
  · rcases hcg : cache_get ttl now st key with ⟨c, st1⟩
    intro h1 h2
    simp only at h1
    subst h1
    unfold fetchWithCache
    rw [hcg]
    cases c with
    | null => exact absurd rfl h2
    | b v => rfl
    | num v => rfl
    | str v => rfl
    | arr xs => rfl
    | obj fs => rfl
  · rcases hcg : cache_get ttl now st key with ⟨c, st1⟩
    intro h1
    simp only at h1
    subst h1
    unfold fetchWithCache
    rw [hcg]
  · intro h
    unfold cache_get
    split_ifs with h1
    · rfl
    · rw [h]
  · intro hpos hnull hfresh
    have hc : cache_get ttl now st key = (.null, st) := by
      simp only [cache_get, if_neg (not_le.mpr hpos), hnull]
      rw [if_pos hfresh]
    unfold fetchWithCache
    rw [hc]

/-- C10 witness: with TTL 45 and a null entry written at time 0, a fetch at
time 1 returns the network body and overwrites the entry, while a store
holding a non-null entry is a hit. -/
theorem cached_null_is_miss_witness :
    (0 < (45 : Int)
      ∧ dictGet [((("current", []) : CacheKey), ((0 : ℚ), JVal.null))] ("current", [])
          = some (0, .null)
      ∧ (1 : ℚ) - 0 ≤ ((45 : Int) : ℚ)
      ∧ fetchWithCache 45 1 [((("current", []) : CacheKey), ((0 : ℚ), JVal.null))]
            ("current", []) (.num 9)
          = (.num 9, cache_set 45 1 [((("current", []) : CacheKey), ((0 : ℚ), JVal.null))]
              ("current", []) (.num 9)))
    ∧ ((cache_get 45 1 [((("current", []) : CacheKey), ((0 : ℚ), JVal.num 7))]
          ("current", [])).1 = .num 7
      ∧ JVal.num 7 ≠ .null
      ∧ fetchWithCache 45 1 [((("current", []) : CacheKey), ((0 : ℚ), JVal.num 7))]
            ("current", []) (.num 9)
          = (.num 7, (cache_get 45 1 [((("current", []) : CacheKey), ((0 : ℚ), JVal.num 7))]
              ("current", [])).2)) :=
  ⟨⟨by decide, by rfl, by norm_num,
      (cached_null_is_miss 45 1 0 ("current", [])
        [((("current", []) : CacheKey), ((0 : ℚ), JVal.null))] (.num 9) .null).2.2.2
        (by decide) (by rfl) (by norm_num)⟩,
    by norm_num [cache_get, dictGet], by simp,
    (cached_null_is_miss 45 1 0 ("current", [])
      [((("current", []) : CacheKey), ((0 : ℚ), JVal.num 7))] (.num 9) (.num 7)).1
      (by norm_num [cache_get, dictGet]) (by simp)⟩

/-! ### Helper lemmas for JSON evaluation -/

theorem jarr_jor_arr (xs : List JVal) : jarr (jor (.arr xs) (.arr [])) = xs := by
  cases xs <;> rfl

theorem getList_of_jget_arr {o : JVal} {k : String} {xs : List JVal}
    (h : jget o k = .arr xs) : getList o k = xs := by
  unfold getList
  rw [h]
  exact jarr_jor_arr xs

theorem getList_of_jget_null {o : JVal} {k : String}
    (h : jget o k = .null) : getList o k = [] := by
  unfold getList
  rw [h]
  rfl

/-- Closed evaluation of the daily loop on a payload holding exactly the
four parallel daily arrays. -/
theorem forecastDaily_eval (ds tx tn wc : List JVal) :
    forecastDaily (.obj [("daily", .obj
      [ ("time", .arr ds), ("temperature_2m_max", .arr tx)
      , ("temperature_2m_min", .arr tn), ("weathercode", .arr wc)])])
    = (List.range (min (min (min ds.length tx.length) tn.length) wc.length)).map
        (fun i =>
          ⟨ds.getD i .null, tn.getD i .null, tx.getD i .null, wc.getD i .null,
            (weathercode_to_text_icon (codeOfJVal (wc.getD i .null))).1,
            (weathercode_to_text_icon (codeOfJVal (wc.getD i .null))).2⟩) := by
  simp only [forecastDaily]
  rw [show jor (jget (jor (JVal.obj [("daily", JVal.obj
      [ ("time", JVal.arr ds), ("temperature_2m_max", JVal.arr tx)
      , ("temperature_2m_min", JVal.arr tn), ("weathercode", JVal.arr wc)])]) (JVal.obj []))
      "daily") (JVal.obj [])
    = JVal.obj [ ("time", JVal.arr ds), ("temperature_2m_max", JVal.arr tx)
      , ("temperature_2m_min", JVal.arr tn), ("weathercode", JVal.arr wc)] from rfl]
  rw [getList_of_jget_arr (show jget (JVal.obj
      [ ("time", JVal.arr ds), ("temperature_2m_max", JVal.arr tx)
      , ("temperature_2m_min", JVal.arr tn), ("weathercode", JVal.arr wc)]) "time"
      = JVal.arr ds from rfl),
    getList_of_jget_arr (show jget (JVal.obj
      [ ("time", JVal.arr ds), ("temperature_2m_max", JVal.arr tx)
      , ("temperature_2m_min", JVal.arr tn), ("weathercode", JVal.arr wc)]) "temperature_2m_max"
      = JVal.arr tx from rfl),
    getList_of_jget_arr (show jget (JVal.obj
      [ ("time", JVal.arr ds), ("temperature_2m_max", JVal.arr tx)
      , ("temperature_2m_min", JVal.arr tn), ("weathercode", JVal.arr wc)]) "temperature_2m_min"
      = JVal.arr tn from rfl),
    getList_of_jget_arr (show jget (JVal.obj
      [ ("time", JVal.arr ds), ("temperature_2m_max", JVal.arr tx)
      , ("temperature_2m_min", JVal.arr tn), ("weathercode", JVal.arr wc)]) "weathercode"
      = JVal.arr wc from rfl)]

/-- Closed evaluation of the hourly loop on a payload holding exactly the
three parallel hourly arrays. -/
theorem forecastHourly_eval (tsl te hc : List JVal) :
    forecastHourly (.obj [("hourly", .obj
      [ ("time", .arr tsl), ("temperature_2m", .arr te), ("weathercode", .arr hc)])])
    = (List.range (min (min tsl.length te.length) hc.length)).map
        (fun i =>
          ⟨tsl.getD i .null, te.getD i .null, hc.getD i .null,
            (weathercode_to_text_icon (codeOfJVal (hc.getD i .null))).1,
            (weathercode_to_text_icon (codeOfJVal (hc.getD i .null))).2⟩) := by
  simp only [forecastHourly]
  rw [show jor (jget (jor (JVal.obj [("hourly", JVal.obj
      [ ("time", JVal.arr tsl), ("temperature_2m", JVal.arr te), ("weathercode", JVal.arr hc)])])
      (JVal.obj [])) "hourly") (JVal.obj [])
    = JVal.obj [ ("time", JVal.arr tsl), ("temperature_2m", JVal.arr te)
      , ("weathercode", JVal.arr hc)] from rfl]
  rw [getList_of_jget_arr (show jget (JVal.obj
      [ ("time", JVal.arr tsl), ("temperature_2m", JVal.arr te), ("weathercode", JVal.arr hc)])
      "time" = JVal.arr tsl from rfl),
    getList_of_jget_arr (show jget (JVal.obj
      [ ("time", JVal.arr tsl), ("temperature_2m", JVal.arr te), ("weathercode", JVal.arr hc)])
      "temperature_2m" = JVal.arr te from rfl),
    getList_of_jget_arr (show jget (JVal.obj
      [ ("time", JVal.arr tsl), ("temperature_2m", JVal.arr te), ("weathercode", JVal.arr hc)])
      "weathercode" = JVal.arr hc from rfl)]

/-! ### Claim theorem: forecast truncation -/

/-- C4.  Forecast truncation: for the daily and hourly sections
independently, the emitted item count is the minimum of the lengths of that
section's parallel arrays, item i drawn positionally from index i of each
array; a missing array yields zero items for its section without error. -/
theorem forecast_truncation (ds tx tn wc tsl te hc : List JVal) :
    ((forecastDaily (.obj [("daily", .obj
        [ ("time", .arr ds), ("temperature_2m_max", .arr tx)
        , ("temperature_2m_min", .arr tn), ("weathercode", .arr wc)])])).length
      = min (min (min ds.length tx.length) tn.length) wc.length)
    ∧ (∀ i, i < min (min (min ds.length tx.length) tn.length) wc.length →
        (forecastDaily (.obj [("daily", .obj
          [ ("time", .arr ds), ("temperature_2m_max", .arr tx)
          , ("temperature_2m_min", .arr tn), ("weathercode", .arr wc)])])).get? i
        = some ⟨ds.getD i .null, tn.getD i .null, tx.getD i .null, wc.getD i .null,
            (weathercode_to_text_icon (codeOfJVal (wc.getD i .null))).1,
            (weathercode_to_text_icon (codeOfJVal (wc.getD i .null))).2⟩)
    ∧ ((forecastHourly (.obj [("hourly", .obj
        [ ("time", .arr tsl), ("temperature_2m", .arr te), ("weathercode", .arr hc)])])).length
      = min (min tsl.length te.length) hc.length)
    ∧ (∀ i, i < min (min tsl.length te.length) hc.length →
        (forecastHourly (.obj [("hourly", .obj
          [ ("time", .arr tsl), ("temperature_2m", .arr te), ("weathercode", .arr hc)])])).get? i
        = some ⟨tsl.getD i .null, te.getD i .null, hc.getD i .null,
            (weathercode_to_text_icon (codeOfJVal (hc.getD i .null))).1,
            (weathercode_to_text_icon (codeOfJVal (hc.getD i .null))).2⟩)
    ∧ (forecastDaily (.obj [("daily", .obj
        [ ("time", .arr ds), ("temperature_2m_max", .arr tx)
        , ("temperature_2m_min", .arr tn)])]) = [])
    ∧ (forecastDaily (.obj [("daily", .obj
        [ ("time", .arr ds), ("temperature_2m_max", .arr tx)
        , ("temperature_2m_min", .arr tn), ("weathercode", .null)])]) = [])
    ∧ forecastDaily .null = [] ∧ forecastHourly .null = [] := by
  refine ⟨?_, ?_, ?_, ?_, ?_, ?_, rfl, rfl⟩
  · rw [forecastDaily_eval]
    simp
  · intro i hi
    rw [forecastDaily_eval, List.get?_map, List.get?_range hi]
    rfl
  · rw [forecastHourly_eval]
    simp
  · intro i hi
    rw [forecastHourly_eval, List.get?_map, List.get?_range hi]
    rfl
  · simp only [forecastDaily]
    rw [show jor (jget (jor (JVal.obj [("daily", JVal.obj
        [ ("time", JVal.arr ds), ("temperature_2m_max", JVal.arr tx)
        , ("temperature_2m_min", JVal.arr tn)])]) (JVal.obj [])) "daily") (JVal.obj [])
      = JVal.obj [ ("time", JVal.arr ds), ("temperature_2m_max", JVal.arr tx)
        , ("temperature_2m_min", JVal.arr tn)] from rfl]
    rw [getList_of_jget_null (show jget (JVal.obj
        [ ("time", JVal.arr ds), ("temperature_2m_max", JVal.arr tx)
        , ("temperature_2m_min", JVal.arr tn)]) "weathercode" = JVal.null from rfl)]
    simp
  · simp only [forecastDaily]
    rw [show jor (jget (jor (JVal.obj [("daily", JVal.obj
        [ ("time", JVal.arr ds), ("temperature_2m_max", JVal.arr tx)
        , ("temperature_2m_min", JVal.arr tn), ("weathercode", JVal.null)])]) (JVal.obj []))
        "daily") (JVal.obj [])
      = JVal.obj [ ("time", JVal.arr ds), ("temperature_2m_max", JVal.arr tx)
        , ("temperature_2m_min", JVal.arr tn), ("weathercode", JVal.null)] from rfl]
    rw [getList_of_jget_null (show jget (JVal.obj
        [ ("time", JVal.arr ds), ("temperature_2m_max", JVal.arr tx)
        , ("temperature_2m_min", JVal.arr tn), ("weathercode", JVal.null)]) "weathercode"
        = JVal.null from rfl)]
    simp

/-- C4 witness: daily arrays of lengths 5 (dates), 5 (max-temp), 3
(min-temp), 3 (weather-code) yield exactly 3 items, item 2 drawn from index
2 of each array. -/
theorem forecast_truncation_witness :
    (forecastDaily (.obj [("daily", .obj
      [ ("time", .arr [.str "2024-05-01", .str "2024-05-02", .str "2024-05-03",
          .str "2024-05-04", .str "2024-05-05"])
      , ("temperature_2m_max", .arr [.num 10, .num 11, .num 12, .num 13, .num 14])
      , ("temperature_2m_min", .arr [.num 1, .num 2, .num 3])
      , ("weathercode", .arr [.num 0, .num 1, .num 2])])])).length = 3
    ∧ (forecastDaily (.obj [("daily", .obj
      [ ("time", .arr [.str "2024-05-01", .str "2024-05-02", .str "2024-05-03",
          .str "2024-05-04", .str "2024-05-05"])
      , ("temperature_2m_max", .arr [.num 10, .num 11, .num 12, .num 13, .num 14])
      , ("temperature_2m_min", .arr [.num 1, .num 2, .num 3])
      , ("weathercode", .arr [.num 0, .num 1, .num 2])])])).get? 2
      = some ⟨.str "2024-05-03", .num 3, .num 12, .num 2,
          some "Partly cloudy", some "partly_cloudy"⟩ :=
  ⟨((forecast_truncation [.str "2024-05-01", .str "2024-05-02", .str "2024-05-03",
        .str "2024-05-04", .str "2024-05-05"]
      [.num 10, .num 11, .num 12, .num 13, .num 14] [.num 1, .num 2, .num 3]
      [.num 0, .num 1, .num 2] [] [] []).1).trans (by decide),
    ((forecast_truncation [.str "2024-05-01", .str "2024-05-02", .str "2024-05-03",
        .str "2024-05-04", .str "2024-05-05"]
      [.num 10, .num 11, .num 12, .num 13, .num 14] [.num 1, .num 2, .num 3]
      [.num 0, .num 1, .num 2] [] [] []).2.1 2 (by decide)).trans (by rfl)⟩

/-! ### Claim theorem: current-weather passthrough -/

/-- C6.  Current-weather normalization passthrough: temperature, wind
direction, weather code and observation time pass through as-is, wind speed
passes through unchanged (the multiplication by 1.0 is a no-op) and is
absent when the upstream windspeed is absent, and condition text/icon come
from the classifier; in particular temperature 18.3, windspeed 10.0,
weathercode 3 yield 18.3, 10.0, Overcast and cloudy. -/
theorem current_weather_passthrough (t w wd : ℚ) (code : Int) (tm : String) :
    normalizeCurrent (.obj [("current_weather", .obj
      [ ("temperature", .num t), ("windspeed", .num w), ("winddirection", .num wd)
      , ("weathercode", .num (code : ℚ)), ("time", .str tm)])])
      = ⟨.num t, .num w, .num wd, .num (code : ℚ),
          (weathercode_to_text_icon (some code)).1,
          (weathercode_to_text_icon (some code)).2, .str tm⟩
    ∧ (normalizeCurrent (.obj [("current_weather", .obj
        [ ("temperature", .num t), ("winddirection", .num wd)
        , ("weathercode", .num (code : ℚ)), ("time", .str tm)])])).wind_speed_kph = .null
    ∧ normalizeCurrent (.obj [("current_weather", .obj
        [ ("temperature", .num (183/10)), ("windspeed", .num 10), ("winddirection", .num 200)
        , ("weathercode", .num 3), ("time", .str "2024-05-01T12:00")])])
      = ⟨.num (183/10), .num 10, .num 200, .num 3,
          some "Overcast", some "cloudy", .str "2024-05-01T12:00"⟩ := by
  refine ⟨?_, rfl, ?_⟩
  · have h : normalizeCurrent (.obj [("current_weather", .obj
        [ ("temperature", .num t), ("windspeed", .num w), ("winddirection", .num wd)
        , ("weathercode", .num (code : ℚ)), ("time", .str tm)])])
        = ⟨.num t, .num (w * 1), .num wd, .num (code : ℚ),
            (weathercode_to_text_icon (some code)).1,
            (weathercode_to_text_icon (some code)).2, .str tm⟩ := rfl
    rw [h, mul_one]
  · have h : normalizeCurrent (.obj [("current_weather", .obj
        [ ("temperature", .num (183/10)), ("windspeed", .num 10), ("winddirection", .num 200)
        , ("weathercode", .num 3), ("time", .str "2024-05-01T12:00")])])
        = ⟨.num (183/10), .num ((10 : ℚ) * 1), .num 200, .num 3,
            some "Overcast", some "cloudy", .str "2024-05-01T12:00"⟩ := rfl
    rw [h, mul_one]

/-! ### Claim theorems: location normalization failures and empty results -/

theorem normalizeSearchItem_error_of_bad {r : JVal}
    (h : pyFloat (jget r "latitude") = none ∨ pyFloat (jget r "longitude") = none) :
    ∃ e, normalizeSearchItem r = .error e := by
  rcases h with h | h
  · refine ⟨"float() failed on latitude", ?_⟩
    unfold normalizeSearchItem
    rw [h]
  · cases hla : pyFloat (jget r "latitude") with
    | none =>
      refine ⟨"float() failed on latitude", ?_⟩
      unfold normalizeSearchItem
      rw [hla]
    | some la =>
      refine ⟨"float() failed on longitude", ?_⟩
      unfold normalizeSearchItem
      rw [hla, h]

theorem normalizeItems_error_of_mem {rs : List JVal} {r : JVal} (hmem : r ∈ rs)
    (herr : ∃ e, normalizeSearchItem r = .error e) :
    ∃ e, normalizeItems rs = .error e := by
  induction rs with
  | nil => cases hmem
  | cons a as ih =>
    cases hna : normalizeSearchItem a with
    | error e => exact ⟨e, by simp only [normalizeItems, hna]⟩
    | ok item =>
      rcases List.mem_cons.mp hmem with hr | hr
      · obtain ⟨e, he⟩ := herr
        rw [hr, hna] at he
        cases he
      · obtain ⟨e, he⟩ := ih hr
        refine ⟨e, ?_⟩
        simp only [normalizeItems, hna, he]
        rfl

/-- C7.  Upstream format failure distinctness: a result item whose latitude
or longitude is missing or not parseable as a number makes that item's
normalization fail, surfacing from search (for any position of the item)
and from reverse (for the first item, the one it normalizes) as the format
failure condition, which is distinct from the transport failure condition
produced by an upstream call error. -/
theorem upstream_format_failure_distinct (rs rest : List JVal) (r : JVal)
    (hmem : r ∈ rs)
    (hbad : pyFloat (jget r "latitude") = none ∨ pyFloat (jget r "longitude") = none) :
    (∃ msg, searchLocations (.ok (.obj [("results", .arr rs)])) = .error (.format msg))
    ∧ (∃ msg, reverseBest (.ok (.obj [("results", .arr (r :: rest))])) = .error (.format msg))
    ∧ (∀ m m' : String, UpstreamFailure.format m ≠ UpstreamFailure.transport m')
    ∧ (∀ m : String, searchLocations (.error m) = .error (.transport m))
    ∧ (∀ m : String, reverseBest (.error m) = .error (.transport m)) := by
  refine ⟨?_, ?_, ?_, fun _ => rfl, fun _ => rfl⟩
  · obtain ⟨e, he⟩ := normalizeItems_error_of_mem hmem (normalizeSearchItem_error_of_bad hbad)
    refine ⟨e, ?_⟩
    simp only [searchLocations]
    rw [getList_of_jget_arr (show jget (jor (JVal.obj [("results", JVal.arr rs)]) (JVal.obj []))
      "results" = JVal.arr rs from rfl), he]
  · obtain ⟨e, he⟩ := normalizeSearchItem_error_of_bad hbad
    refine ⟨e, ?_⟩
    simp only [reverseBest]
    rw [getList_of_jget_arr (show jget (jor (JVal.obj [("results", JVal.arr (r :: rest))])
      (JVal.obj [])) "results" = JVal.arr (r :: rest) from rfl)]
    show (match normalizeSearchItem r with
      | .error e => Except.error (UpstreamFailure.format e)
      | .ok item => Except.ok (some item)) = Except.error (UpstreamFailure.format e)
    rw [he]
  · intro m m' h
    cases h

/-- C7 witness: a single search result without coordinates yields the
format failure from both search and reverse, and format and transport are
different conditions. -/
theorem upstream_format_failure_distinct_witness :
    (JVal.obj [] ∈ [JVal.obj []]
      ∧ (pyFloat (jget (JVal.obj []) "latitude") = none
          ∨ pyFloat (jget (JVal.obj []) "longitude") = none))
    ∧ (∃ msg, searchLocations (.ok (.obj [("results", .arr [JVal.obj []])]))
        = .error (.format msg))
    ∧ (∃ msg, reverseBest (.ok (.obj [("results", .arr [JVal.obj []])]))
        = .error (.format msg))
    ∧ UpstreamFailure.format "x" ≠ UpstreamFailure.transport "x" :=
  ⟨⟨List.mem_singleton.mpr rfl, Or.inl rfl⟩,
    (upstream_format_failure_distinct [JVal.obj []] [] (JVal.obj [])
      (List.mem_singleton.mpr rfl) (Or.inl rfl)).1,
    (upstream_format_failure_distinct [JVal.obj []] [] (JVal.obj [])
      (List.mem_singleton.mpr rfl) (Or.inl rfl)).2.1,
    (upstream_format_failure_distinct [JVal.obj []] [] (JVal.obj [])
      (List.mem_singleton.mpr rfl) (Or.inl rfl)).2.2.1 "x" "x"⟩

/-- C8.  Empty result is not an error: when a successful upstream body has
an empty or missing results array, search returns an empty list and reverse
returns the absent outcome, neither a failure. -/
theorem empty_result_not_error (data : JVal)
    (h : getList (jor data (.obj [])) "results" = []) :
    searchLocations (.ok data) = .ok [] ∧ reverseBest (.ok data) = .ok none := by
  constructor
  · simp only [searchLocations]
    rw [h]
    rfl
  · simp only [reverseBest]
    rw [h]

/-- C8 witness: both an explicit empty results array and a body without a
results key give the empty search list and the absent reverse outcome. -/
theorem empty_result_not_error_witness :
    (getList (jor (JVal.obj [("results", JVal.arr [])]) (.obj [])) "results" = []
      ∧ searchLocations (.ok (.obj [("results", .arr [])])) = .ok []
      ∧ reverseBest (.ok (.obj [("results", .arr [])])) = .ok none)
    ∧ (getList (jor (JVal.obj [("generationtime_ms", JVal.num 1)]) (.obj [])) "results" = []
      ∧ searchLocations (.ok (.obj [("generationtime_ms", .num 1)])) = .ok []
      ∧ reverseBest (.ok (.obj [("generationtime_ms", .num 1)])) = .ok none) :=
  ⟨⟨rfl, (empty_result_not_error (.obj [("results", .arr [])]) rfl).1,
      (empty_result_not_error (.obj [("results", .arr [])]) rfl).2⟩,
    rfl, (empty_result_not_error (.obj [("generationtime_ms", .num 1)]) rfl).1,
    (empty_result_not_error (.obj [("generationtime_ms", .num 1)]) rfl).2⟩

end WeatherCompanion
